import Mathlib

/-! Lifecycle callbacks of the broken-links synthetic monitor resource.

A shallow embedding of `newrelic/resource_newrelic_synthetics_broken_links_monitor.go`.

* The Go `*schema.ResourceData` that every callback mutates is the record
  `ResourceData` (schema, ID, attribute store), passed explicitly.
* Each callback is a function from the state on entry to the returned
  `diag.Diagnostics` and the state on exit.
* The remote service is a state machine over a state type `σ` that the callbacks
  cannot inspect: a call of an endpoint of the client takes the state of the
  service and the arguments to the Go result pair `(resp, err)`, written as an
  `Except`, and the next state of the service. The state of the service is
  threaded through the callbacks, so the only way a callback has to an answer, and
  to a next state, is a call. `Client.logged` wraps any client into one that keeps
  a log of the calls it receives.
* A log `writes` of the `d.SetId` / `d.Set` calls made so far is carried next to
  the resource data, kept by the two methods themselves.
* Functions, tables and types of the package that are defined in other files
  of the repository are taken as parameters (`Deps`), with the one exception of
  `setSyntheticsMonitorAttributes`, which is modelled. The order in which Go
  ranges over a map is a parameter too (`Deps.mapOrder`).
* `context.Context` is not modelled (its only use is to be handed to the SDK),
  and neither are the two `log.Printf` lines.
-/

namespace NewRelic

/-! ## Errors and diagnostics -/

/-- Go `error` values, split by the one dynamic type the callbacks test for:
`err.(*errors.NotFound)` succeeds exactly on `notFound`. -/
inductive GoError where
  | notFound (msg : String)
  | other (msg : String)
  deriving DecidableEq, Repr

/-- The method `Error()` of a Go error. -/
def GoError.Error : GoError → String
  | .notFound msg => msg
  | .other msg => msg

/-- The type assertion `_, ok := err.(*errors.NotFound)`. -/
def GoError.isNotFound : GoError → Bool
  | .notFound _ => true
  | .other _ => false

/-- The severities of `diag.Severity`. -/
inductive Severity where
  | Error
  | Warning
  deriving DecidableEq, Repr

/-- The struct `diag.Diagnostic` (without the attribute path). -/
structure Diagnostic where
  Severity : Severity
  Summary : String
  Detail : String
  deriving DecidableEq, Repr

/-- The slice type `diag.Diagnostics`; the Go `nil` is the empty list. -/
abbrev Diagnostics := List Diagnostic

/-- The function `diag.FromErr` of the plugin SDK: nil for a nil error, else a
single error diagnostic whose summary is the error text. -/
def diag.FromErr : Option GoError → Diagnostics
  | none => []
  | some err => [{ Severity := .Error, Summary := err.Error, Detail := "" }]

/-! ## Resource data -/

/-- The value types of the schema that the callbacks write. -/
inductive ValueType where
  | TypeString
  | TypeInt
  | TypeSet
  deriving DecidableEq, Repr

/-- The Go values handed to `d.Set` in this file: a string, an int, a slice of strings. -/
inductive AttrValue where
  | str (s : String)
  | int (i : Int)
  | strs (l : List String)
  deriving DecidableEq, Repr

/-- The values of the attribute store: a string, an int, and for a `TypeSet` key of
strings a `*schema.Set`, which is a set: it has no order and holds an element once. -/
inductive StoredValue where
  | str (s : String)
  | int (i : Int)
  | set (s : Finset String)
  deriving DecidableEq

/-- The value the field writer of the plugin SDK stores for a Go value at a key of the
given schema type, if it stores one: a string at a string key, an int at an int key,
and at a set key the set of the elements of the slice (duplicates collapse and the
order of the slice is lost). -/
def AttrValue.store : AttrValue → ValueType → Option StoredValue
  | .str s, .TypeString => some (.str s)
  | .int i, .TypeInt => some (.int i)
  | .strs l, .TypeSet => some (.set l.toFinset)
  | _, _ => none

/-- The name Go prints for the dynamic type of a value (`%T`). -/
def AttrValue.goType : AttrValue → String
  | .str _ => "string"
  | .int _ => "int"
  | .strs _ => "[]string"

/-- The text Go prints for a value (`%v`). -/
def AttrValue.goText : AttrValue → String
  | .str s => s
  | .int i => toString i
  | .strs l => "[" ++ " ".intercalate l ++ "]"

/-- The name Go prints for the type a key of the given schema type decodes to. -/
def ValueType.goType : ValueType → String
  | .TypeString => "string"
  | .TypeInt => "int"
  | .TypeSet => "*schema.Set"

/-- A resource schema, `map[string]*schema.Schema`, reduced to the type of each key. -/
abbrev Schema := List (String × ValueType)

/-- The function `syntheticsBrokenLinksMonitorSchema`: the one key this file declares. -/
def syntheticsBrokenLinksMonitorSchema : Schema :=
  [("uri", .TypeString)]

/-- The keys the callbacks write, with the types they are written at. The key `uri`
comes from `syntheticsBrokenLinksMonitorSchema`, the others from
`syntheticsMonitorCommonSchema` and `syntheticsMonitorLocationsAsStringsSchema`, which
`resourceNewRelicSyntheticsBrokenLinksMonitor` merges into the resource schema. -/
def declaresMonitorAttributes (s : Schema) : Bool :=
  s.lookup "uri" == some .TypeString &&
  s.lookup "guid" == some .TypeString &&
  s.lookup "name" == some .TypeString &&
  s.lookup "period" == some .TypeString &&
  s.lookup "status" == some .TypeString &&
  s.lookup "account_id" == some .TypeInt &&
  s.lookup "locations_public" == some .TypeSet

/-- The plugin SDK type `*schema.ResourceData`: the schema it was built from, the
resource ID and the attribute store. -/
structure ResourceData where
  schema : Schema
  id : String
  attrs : String → Option StoredValue

/-- The method `d.Id()`. -/
def ResourceData.Id (d : ResourceData) : String := d.id

/-- The method `d.SetId(v)`. -/
def ResourceData.SetId (d : ResourceData) (v : String) : ResourceData :=
  { d with id := v }

/-- The method `d.Set(key, value)` of the plugin SDK, for the keys of this file (no
dots): when the schema has no such key, or the value does not convert to the type of
the key, nothing is written and the failure is returned as an error; else what
`AttrValue.store` gives is stored under the key and nothing else changes. The error
texts follow the field writer of the SDK for an unknown key and for a string or int
key; the failure at a set key is rendered in the same form. -/
def ResourceData.Set (d : ResourceData) (key : String) (value : AttrValue) :
    ResourceData × Option GoError :=
  match d.schema.lookup key with
  | none => (d, some (.other ("Invalid address to set: []string\x7b\"" ++ key ++ "\"\x7d")))
  | some t =>
    match value.store t with
    | some stored =>
      ({ d with attrs := fun k => if k = key then some stored else d.attrs k }, none)
    | none =>
      (d, some (.other (key ++ ": '' expected type '" ++ t.goType ++
        "', got unconvertible type '" ++ value.goType ++ "', value: '" ++
        value.goText ++ "'")))

/-! ## Remote SDK types -/

/-- The fields of `synthetics.SyntheticsBrokenLinksMonitor` that the callbacks read. -/
structure SyntheticsBrokenLinksMonitor where
  GUID : String
  Name : String
  Period : String
  Status : String
  Uri : String
  deriving DecidableEq, Repr

/-- An element of the error list of a create or update mutation result: its
description and its error type. -/
structure SyntheticsMonitorError where
  Description : String
  ErrorType : String
  deriving DecidableEq, Repr

/-- The result `SyntheticsBrokenLinksMonitorCreateMutationResult`. -/
structure SyntheticsBrokenLinksMonitorCreateMutationResult where
  Errors : List SyntheticsMonitorError
  Monitor : SyntheticsBrokenLinksMonitor
  deriving DecidableEq, Repr

/-- The result `SyntheticsBrokenLinksMonitorUpdateMutationResult`. -/
structure SyntheticsBrokenLinksMonitorUpdateMutationResult where
  Errors : List SyntheticsMonitorError
  Monitor : SyntheticsBrokenLinksMonitor
  deriving DecidableEq, Repr

/-- An entity tag, `entities.EntityTag`. -/
structure EntityTag where
  Key : String
  Values : List String
  deriving DecidableEq, Repr

/-- The fields and getters of `entities.SyntheticMonitorEntity` that `Read` uses:
`Period` is what `GetPeriod()` returns, `Tags` what `GetTags()` returns, and
`MonitorSummaryStatus` is `MonitorSummary.Status`. -/
structure SyntheticMonitorEntity where
  GUID : String
  Name : String
  Period : Int
  MonitorSummaryStatus : String
  MonitoredURL : String
  Tags : List EntityTag
  deriving DecidableEq, Repr

/-- The interface `entities.EntityInterface` by dynamic type: the one the type switch
of `Read` has a case for, and every other one (named by its type; the nil interface
value is among them, it matches no case of a type switch without a default). -/
inductive EntityInterface where
  | syntheticMonitorEntity (e : SyntheticMonitorEntity)
  | otherEntity (typeName : String)
  deriving DecidableEq, Repr

/-- A remote SDK call with its arguments. `CI` and `UI` are the create and update
input structs, which this file builds through helpers and never inspects. -/
inductive Request (CI UI : Type) where
  | SyntheticsCreateBrokenLinksMonitor (accountID : Int) (input : CI)
  | SyntheticsUpdateBrokenLinksMonitor (guid : String) (input : UI)
  | SyntheticsDeleteMonitor (guid : String)
  | GetEntity (guid : String)

/-- The remote client `providerConfig.NewClient`: for each endpoint the callbacks
use, a call in a state of the remote service with the given arguments gives the Go
result `(resp, err)` and the next state of the service. -/
structure Client (σ CI UI : Type) where
  SyntheticsCreateBrokenLinksMonitorWithContext :
    σ → Int → CI → Except GoError SyntheticsBrokenLinksMonitorCreateMutationResult × σ
  SyntheticsUpdateBrokenLinksMonitorWithContext :
    σ → String → UI → Except GoError SyntheticsBrokenLinksMonitorUpdateMutationResult × σ
  SyntheticsDeleteMonitorWithContext : σ → String → Except GoError Unit × σ
  GetEntityWithContext : σ → String → Except GoError EntityInterface × σ

/-- The client that answers as `c` does and keeps, next to the state of `c`, the log
of the calls it has received: every call appends its request to the log. -/
def Client.logged {σ CI UI : Type} (c : Client σ CI UI) :
    Client (σ × List (Request CI UI)) CI UI :=
  { SyntheticsCreateBrokenLinksMonitorWithContext := fun s accountID input =>
      ((c.SyntheticsCreateBrokenLinksMonitorWithContext s.1 accountID input).1,
       ((c.SyntheticsCreateBrokenLinksMonitorWithContext s.1 accountID input).2,
        s.2 ++ [.SyntheticsCreateBrokenLinksMonitor accountID input]))
    SyntheticsUpdateBrokenLinksMonitorWithContext := fun s guid input =>
      ((c.SyntheticsUpdateBrokenLinksMonitorWithContext s.1 guid input).1,
       ((c.SyntheticsUpdateBrokenLinksMonitorWithContext s.1 guid input).2,
        s.2 ++ [.SyntheticsUpdateBrokenLinksMonitor guid input]))
    SyntheticsDeleteMonitorWithContext := fun s guid =>
      ((c.SyntheticsDeleteMonitorWithContext s.1 guid).1,
       ((c.SyntheticsDeleteMonitorWithContext s.1 guid).2,
        s.2 ++ [.SyntheticsDeleteMonitor guid]))
    GetEntityWithContext := fun s guid =>
      ((c.GetEntityWithContext s.1 guid).1,
       ((c.GetEntityWithContext s.1 guid).2, s.2 ++ [.GetEntity guid])) }

/-- The struct `ProviderConfig` behind the `meta` argument. -/
structure ProviderConfig (σ CI UI : Type) where
  NewClient : Client σ CI UI
  AccountID : Int

/-- The provider configuration with its client replaced by the logged client. -/
def ProviderConfig.logged {σ CI UI : Type} (providerConfig : ProviderConfig σ CI UI) :
    ProviderConfig (σ × List (Request CI UI)) CI UI :=
  { NewClient := providerConfig.NewClient.logged, AccountID := providerConfig.AccountID }

/-- Functions and tables of package `newrelic` that the callbacks use and that are
defined in other files, and `mapOrder`, the order in which a Go `range` visits the
entries of a map (left unspecified by the language). -/
structure Deps (σ CI UI : Type) where
  selectAccountID : ProviderConfig σ CI UI → ResourceData → Int
  buildSyntheticsBrokenLinksMonitorCreateInput : ResourceData → CI
  buildSyntheticsBrokenLinksMonitorUpdateInput : ResourceData → UI
  buildCreateSyntheticsMonitorResponseErrors : List SyntheticsMonitorError → Diagnostics
  buildUpdateSyntheticsMonitorResponseErrors : List SyntheticsMonitorError → Diagnostics
  getPublicLocationsFromEntityTags : List EntityTag → List String
  syntheticsMonitorPeriodValueMap : List (Int × String)
  mapOrder : List (String × String) → List (String × String)

/-- A Go map lookup `m[k]` on a map with string values: the zero value when the
key is absent. -/
def goMapIndex (m : List (Int × String)) (k : Int) : String :=
  (m.lookup k).getD ""

/-! ## The state a callback runs in -/

/-- A call of a mutating method of `*schema.ResourceData`. -/
inductive Write where
  | SetId (v : String)
  | Set (key : String) (value : AttrValue)
  deriving DecidableEq, Repr

/-- The state a callback runs in: the resource data, the state of the remote
service, and the log of the writes to the resource data. -/
structure World (σ : Type) where
  d : ResourceData
  remote : σ
  writes : List Write

variable {σ CI UI : Type}

/-- The state once a remote call has left the remote service in state `s`. -/
def World.setRemote (w : World σ) (s : σ) : World σ :=
  { w with remote := s }

/-- The statement `d.SetId(v)`. -/
def World.SetId (w : World σ) (v : String) : World σ :=
  { w with d := w.d.SetId v, writes := w.writes ++ [.SetId v] }

/-- The expression `d.Set(key, value)`. -/
def World.Set (w : World σ) (key : String) (value : AttrValue) :
    World σ × Option GoError :=
  ({ w with d := (w.d.Set key value).1, writes := w.writes ++ [.Set key value] },
   (w.d.Set key value).2)

/-- The loop of `setSyntheticsMonitorAttributes` over the entries in the order they
are visited: `d.Set` for each, stopping at the first error, which is returned. -/
def setAttributesInOrder (w : World σ) :
    List (String × String) → World σ × Option GoError
  | [] => (w, none)
  | (key, value) :: rest =>
    match w.Set key (.str value) with
    | (w1, some err) => (w1, some err)
    | (w1, none) => setAttributesInOrder w1 rest

/-- Modelled from the spec: `setSyntheticsMonitorAttributes` is defined in another
file of the repository. It is the step "set local state" of a callback: it ranges
over the map of attributes, calls `d.Set(key, value)` for each entry, and returns the
first error, or nil. The map literal is given as the list of its entries. -/
def setSyntheticsMonitorAttributes (deps : Deps σ CI UI) (w : World σ)
    (attributes : List (String × String)) : World σ × Option GoError :=
  setAttributesInOrder w (deps.mapOrder attributes)

/-! ## The callbacks -/

/-- The callback `resourceNewRelicSyntheticsBrokenLinksMonitorCreate`. -/
def resourceNewRelicSyntheticsBrokenLinksMonitorCreate (deps : Deps σ CI UI)
    (w : World σ) (providerConfig : ProviderConfig σ CI UI) :
    Diagnostics × World σ :=
  let client := providerConfig.NewClient
  let accountID := deps.selectAccountID providerConfig w.d
  let monitorInput := deps.buildSyntheticsBrokenLinksMonitorCreateInput w.d
  let r := client.SyntheticsCreateBrokenLinksMonitorWithContext w.remote accountID monitorInput
  let w1 := w.setRemote r.2
  match r.1 with
  | .error err => (diag.FromErr (some err), w1)
  | .ok resp =>
    let errors := deps.buildCreateSyntheticsMonitorResponseErrors resp.Errors
    if errors.length > 0 then (errors, w1)
    else
      let w2 := w1.SetId resp.Monitor.GUID
      let w3 := (w2.Set "account_id" (.int accountID)).1
      let res := setSyntheticsMonitorAttributes deps w3 [
        ("guid", resp.Monitor.GUID),
        ("name", resp.Monitor.Name),
        ("period", resp.Monitor.Period),
        ("status", resp.Monitor.Status),
        ("uri", resp.Monitor.Uri)]
      (diag.FromErr res.2, res.1)

/-- The callback `resourceNewRelicSyntheticsBrokenLinksMonitorRead`. -/
def resourceNewRelicSyntheticsBrokenLinksMonitorRead (deps : Deps σ CI UI)
    (w : World σ) (providerConfig : ProviderConfig σ CI UI) :
    Diagnostics × World σ :=
  let client := providerConfig.NewClient
  let accountID := deps.selectAccountID providerConfig w.d
  let r := client.GetEntityWithContext w.remote w.d.Id
  let w1 := w.setRemote r.2
  match r.1 with
  | .error err =>
    if err.isNotFound then ([], w1.SetId "")
    else (diag.FromErr (some err), w1)
  | .ok resp =>
    match resp with
    | .syntheticMonitorEntity e =>
      let entity := e
      let w2 := w1.SetId e.GUID
      let w3 := (w2.Set "account_id" (.int accountID)).1
      let w4 := (w3.Set "locations_public"
        (.strs (deps.getPublicLocationsFromEntityTags entity.Tags))).1
      let res := setSyntheticsMonitorAttributes deps w4 [
        ("guid", e.GUID),
        ("name", entity.Name),
        ("period", goMapIndex deps.syntheticsMonitorPeriodValueMap entity.Period),
        ("status", entity.MonitorSummaryStatus),
        ("uri", entity.MonitoredURL)]
      (diag.FromErr res.2, res.1)
    | .otherEntity _ => (diag.FromErr none, w1)

/-- The callback `resourceNewRelicSyntheticsBrokenLinksMonitorUpdate`. -/
def resourceNewRelicSyntheticsBrokenLinksMonitorUpdate (deps : Deps σ CI UI)
    (w : World σ) (providerConfig : ProviderConfig σ CI UI) :
    Diagnostics × World σ :=
  let client := providerConfig.NewClient
  let guid := w.d.Id
  let monitorInput := deps.buildSyntheticsBrokenLinksMonitorUpdateInput w.d
  let r := client.SyntheticsUpdateBrokenLinksMonitorWithContext w.remote guid monitorInput
  let w1 := w.setRemote r.2
  match r.1 with
  | .error err => (diag.FromErr (some err), w1)
  | .ok resp =>
    let errors := deps.buildUpdateSyntheticsMonitorResponseErrors resp.Errors
    if errors.length > 0 then (errors, w1)
    else
      let res := setSyntheticsMonitorAttributes deps w1 [
        ("guid", resp.Monitor.GUID),
        ("name", resp.Monitor.Name),
        ("period", resp.Monitor.Period),
        ("status", resp.Monitor.Status),
        ("uri", resp.Monitor.Uri)]
      (diag.FromErr res.2, res.1)

/-- The callback `resourceNewRelicSyntheticsBrokenLinksMonitorDelete`. -/
def resourceNewRelicSyntheticsBrokenLinksMonitorDelete
    (w : World σ) (providerConfig : ProviderConfig σ CI UI) :
    Diagnostics × World σ :=
  let client := providerConfig.NewClient
  let guid := w.d.Id
  let r := client.SyntheticsDeleteMonitorWithContext w.remote guid
  let w1 := w.setRemote r.2
  match r.1 with
  | .error err => (diag.FromErr (some err), w1)
  | .ok _ =>
    let w2 := w1.SetId ""
    (diag.FromErr none, w2)

/-! ## Example data

A resource of this type with a full schema, helpers in the shape the package
gives them, and clients for each outcome of a remote call. The state of the example
remote service is the number of calls it has answered. The example map order is the
reverse of the source order. -/

/-- An example of the merged resource schema. -/
def exSchema : Schema :=
  syntheticsBrokenLinksMonitorSchema ++
  [("account_id", .TypeInt), ("guid", .TypeString), ("name", .TypeString),
   ("period", .TypeString), ("status", .TypeString),
   ("locations_public", .TypeSet), ("locations_private", .TypeSet)]

/-- An example of resource data on entry: an ID and a configured account. -/
def exData : ResourceData :=
  { schema := exSchema
    id := "MTIz"
    attrs := fun k => if k = "account_id" then some (.int 42) else none }

/-- An example state on entry: a remote service that has answered no call, and no
write so far. -/
def exWorld : World Nat :=
  { d := exData, remote := 0, writes := [] }

/-- The example state on entry next to a logged client with an empty log. -/
def exWorldLogged : World (Nat × List (Request String String)) :=
  { d := exData, remote := (0, []), writes := [] }

/-- Example helpers. -/
def exDeps {σ : Type} : Deps σ String String :=
  { selectAccountID := fun providerConfig d =>
      match d.attrs "account_id" with
      | some (.int n) => if n = 0 then providerConfig.AccountID else n
      | _ => providerConfig.AccountID
    buildSyntheticsBrokenLinksMonitorCreateInput := fun d => "create:" ++ d.id
    buildSyntheticsBrokenLinksMonitorUpdateInput := fun d => "update:" ++ d.id
    buildCreateSyntheticsMonitorResponseErrors := fun errs =>
      errs.map fun e =>
        { Severity := .Error, Summary := e.ErrorType ++ " " ++ e.Description, Detail := "" }
    buildUpdateSyntheticsMonitorResponseErrors := fun errs =>
      errs.map fun e =>
        { Severity := .Error, Summary := e.ErrorType ++ " " ++ e.Description, Detail := "" }
    getPublicLocationsFromEntityTags := fun tags =>
      (tags.filter fun t => t.Key = "publicLocation").flatMap fun t => t.Values
    syntheticsMonitorPeriodValueMap :=
      [(1, "EVERY_MINUTE"), (5, "EVERY_5_MINUTES"), (60, "EVERY_HOUR"), (1440, "EVERY_DAY")]
    mapOrder := List.reverse }

/-- An example monitor as the create and update mutations return it. -/
def exMonitor : SyntheticsBrokenLinksMonitor :=
  { GUID := "GUID-1", Name := "links", Period := "EVERY_HOUR", Status := "ENABLED",
    Uri := "https://example.com" }

/-- An example synthetic-monitor entity. Its tags name one public location twice and
another once. -/
def exEntity : SyntheticMonitorEntity :=
  { GUID := "GUID-1", Name := "links", Period := 60, MonitorSummaryStatus := "SUCCESS",
    MonitoredURL := "https://example.com",
    Tags := [{ Key := "publicLocation", Values := ["US_EAST_1", "EU_WEST_1"] },
             { Key := "team", Values := ["web"] },
             { Key := "publicLocation", Values := ["US_EAST_1"] }] }

/-- An example mutation error. -/
def exResponseError : SyntheticsMonitorError :=
  { Description := "uri is not valid", ErrorType := "BAD_REQUEST" }

/-- An example client whose every call succeeds. -/
def exClientOk : Client Nat String String :=
  { SyntheticsCreateBrokenLinksMonitorWithContext := fun n _ _ =>
      (.ok { Errors := [], Monitor := exMonitor }, n + 1)
    SyntheticsUpdateBrokenLinksMonitorWithContext := fun n _ _ =>
      (.ok { Errors := [], Monitor := exMonitor }, n + 1)
    SyntheticsDeleteMonitorWithContext := fun n _ => (.ok (), n + 1)
    GetEntityWithContext := fun n _ => (.ok (.syntheticMonitorEntity exEntity), n + 1) }

/-- An example client whose every call fails with an error that is not a not-found. -/
def exClientFail : Client Nat String String :=
  { SyntheticsCreateBrokenLinksMonitorWithContext := fun n _ _ =>
      (.error (.other "timeout"), n + 1)
    SyntheticsUpdateBrokenLinksMonitorWithContext := fun n _ _ =>
      (.error (.other "timeout"), n + 1)
    SyntheticsDeleteMonitorWithContext := fun n _ => (.error (.other "timeout"), n + 1)
    GetEntityWithContext := fun n _ => (.error (.other "timeout"), n + 1) }

/-- An example client whose mutations answer with an error list next to a monitor,
whose lookup finds no entity, and whose delete fails with a not-found. -/
def exClientReject : Client Nat String String :=
  { SyntheticsCreateBrokenLinksMonitorWithContext := fun n _ _ =>
      (.ok { Errors := [exResponseError], Monitor := exMonitor }, n + 1)
    SyntheticsUpdateBrokenLinksMonitorWithContext := fun n _ _ =>
      (.ok { Errors := [exResponseError], Monitor := exMonitor }, n + 1)
    SyntheticsDeleteMonitorWithContext := fun n _ =>
      (.error (.notFound "no such monitor"), n + 1)
    GetEntityWithContext := fun n _ => (.error (.notFound "entity not found"), n + 1) }

/-- An example client whose lookup returns an entity of another type. -/
def exClientOther : Client Nat String String :=
  { exClientOk with
    GetEntityWithContext := fun n _ => (.ok (.otherEntity "DashboardEntity"), n + 1) }

/-- An example client whose first answer is a timeout and whose later answers are
successes: a second call would succeed. -/
def exClientFlaky : Client Nat String String :=
  { SyntheticsCreateBrokenLinksMonitorWithContext := fun n accountID input =>
      if n = 0 then (.error (.other "timeout"), n + 1)
      else exClientOk.SyntheticsCreateBrokenLinksMonitorWithContext n accountID input
    SyntheticsUpdateBrokenLinksMonitorWithContext := fun n guid input =>
      if n = 0 then (.error (.other "timeout"), n + 1)
      else exClientOk.SyntheticsUpdateBrokenLinksMonitorWithContext n guid input
    SyntheticsDeleteMonitorWithContext := fun n guid =>
      if n = 0 then (.error (.other "timeout"), n + 1)
      else exClientOk.SyntheticsDeleteMonitorWithContext n guid
    GetEntityWithContext := fun n guid =>
      if n = 0 then (.error (.other "timeout"), n + 1)
      else exClientOk.GetEntityWithContext n guid }

/-- An example provider configuration for a client. -/
def exConfig {σ : Type} (client : Client σ String String) : ProviderConfig σ String String :=
  { NewClient := client, AccountID := 7 }

/-! ## The attribute store under `d.Set` -/

/-- A `d.Set` leaves the schema alone. -/
theorem ResourceData.Set_schema (d : ResourceData) (key : String) (value : AttrValue) :
    (d.Set key value).1.schema = d.schema := by
  unfold ResourceData.Set
  split
  · rfl
  · split <;> rfl

/-- A `d.Set` leaves the ID alone. -/
theorem ResourceData.Set_id (d : ResourceData) (key : String) (value : AttrValue) :
    (d.Set key value).1.id = d.id := by
  unfold ResourceData.Set
  split
  · rfl
  · split <;> rfl

/-- A `d.Set` leaves every other key alone. -/
theorem ResourceData.Set_other (d : ResourceData) (key : String) (value : AttrValue)
    (k : String) (hk : k ≠ key) : (d.Set key value).1.attrs k = d.attrs k := by
  unfold ResourceData.Set
  split
  · rfl
  · split
    · simp [hk]
    · rfl

/-- A `d.Set` of a value of the declared type returns no error and stores the value. -/
theorem ResourceData.Set_declared (d : ResourceData) (key : String) (value : AttrValue)
    (t : ValueType) (stored : StoredValue) (hs : d.schema.lookup key = some t)
    (hst : value.store t = some stored) :
    (d.Set key value).2 = none ∧ (d.Set key value).1.attrs key = some stored := by
  unfold ResourceData.Set
  simp [hs, hst]

/-- A `d.Set` of a string that returns no error has stored the string. -/
theorem ResourceData.Set_stored (d : ResourceData) (key : String) (value : String)
    (h : (d.Set key (.str value)).2 = none) :
    (d.Set key (.str value)).1.attrs key = some (.str value) := by
  unfold ResourceData.Set at h ⊢
  cases hs : d.schema.lookup key with
  | none => simp [hs] at h
  | some t =>
    cases t with
    | TypeString => simp [AttrValue.store]
    | TypeInt => simp [hs, AttrValue.store] at h
    | TypeSet => simp [hs, AttrValue.store] at h

/-- The attribute loop leaves the remote service alone. -/
theorem setAttributesInOrder_remote (w : World σ) (l : List (String × String)) :
    (setAttributesInOrder w l).1.remote = w.remote := by
  induction l generalizing w with
  | nil => rfl
  | cons p rest ih =>
    obtain ⟨key, value⟩ := p
    unfold setAttributesInOrder
    cases h : (w.d.Set key (.str value)).2 with
    | none => simp only [World.Set, h]; rw [ih]
    | some err => simp only [World.Set, h]

/-- The attribute loop leaves the ID alone. -/
theorem setAttributesInOrder_id (w : World σ) (l : List (String × String)) :
    (setAttributesInOrder w l).1.d.id = w.d.id := by
  induction l generalizing w with
  | nil => rfl
  | cons p rest ih =>
    obtain ⟨key, value⟩ := p
    unfold setAttributesInOrder
    cases h : (w.d.Set key (.str value)).2 with
    | none => simp only [World.Set, h]; rw [ih]; exact ResourceData.Set_id _ _ _
    | some err => simp only [World.Set, h]; exact ResourceData.Set_id _ _ _

/-- The attribute loop leaves the schema alone. -/
theorem setAttributesInOrder_schema (w : World σ) (l : List (String × String)) :
    (setAttributesInOrder w l).1.d.schema = w.d.schema := by
  induction l generalizing w with
  | nil => rfl
  | cons p rest ih =>
    obtain ⟨key, value⟩ := p
    unfold setAttributesInOrder
    cases h : (w.d.Set key (.str value)).2 with
    | none => simp only [World.Set, h]; rw [ih]; exact ResourceData.Set_schema _ _ _
    | some err => simp only [World.Set, h]; exact ResourceData.Set_schema _ _ _

/-- The attribute loop leaves every key outside the map alone, whether it fails or not. -/
theorem setAttributesInOrder_frame (w : World σ) (l : List (String × String))
    (k : String) (hk : k ∉ l.map Prod.fst) :
    (setAttributesInOrder w l).1.d.attrs k = w.d.attrs k := by
  induction l generalizing w with
  | nil => rfl
  | cons p rest ih =>
    obtain ⟨key, value⟩ := p
    simp only [List.map_cons, List.mem_cons, not_or] at hk
    unfold setAttributesInOrder
    cases h : (w.d.Set key (.str value)).2 with
    | none =>
      simp only [World.Set, h]; rw [ih _ hk.2]; exact ResourceData.Set_other _ _ _ _ hk.1
    | some err => simp only [World.Set, h]; exact ResourceData.Set_other _ _ _ _ hk.1

/-- The attribute loop returns no error when the schema declares every key of the map
as a string. -/
theorem setAttributesInOrder_ok (w : World σ) (l : List (String × String))
    (hs : ∀ p ∈ l, w.d.schema.lookup p.1 = some .TypeString) :
    (setAttributesInOrder w l).2 = none := by
  induction l generalizing w with
  | nil => rfl
  | cons p rest ih =>
    obtain ⟨key, value⟩ := p
    have h := (ResourceData.Set_declared w.d key (.str value) .TypeString (.str value)
      (hs (key, value) (List.mem_cons_self _ _)) rfl).1
    unfold setAttributesInOrder
    simp only [World.Set, h]
    apply ih
    intro q hq
    simp only [ResourceData.Set_schema]
    exact hs q (List.mem_cons_of_mem _ hq)

/-- An attribute loop over distinct keys that returns no error has stored every entry. -/
theorem setAttributesInOrder_get (w : World σ) (l : List (String × String))
    (hnd : (l.map Prod.fst).Nodup) (herr : (setAttributesInOrder w l).2 = none) :
    ∀ p ∈ l, (setAttributesInOrder w l).1.d.attrs p.1 = some (.str p.2) := by
  induction l generalizing w with
  | nil => intro p hp; cases hp
  | cons q rest ih =>
    obtain ⟨key, value⟩ := q
    simp only [List.map_cons, List.nodup_cons] at hnd
    unfold setAttributesInOrder at herr ⊢
    cases h : (w.d.Set key (.str value)).2 with
    | some err => simp [World.Set, h] at herr
    | none =>
      simp only [World.Set, h] at herr ⊢
      intro p hp
      rcases List.mem_cons.1 hp with rfl | hp
      · rw [setAttributesInOrder_frame _ _ _ hnd.1]
        exact ResourceData.Set_stored _ _ _ h
      · exact ih _ hnd.2 herr p hp


/-- What `setSyntheticsMonitorAttributes` does on a map with distinct keys that the schema
declares as strings, whatever the order of the range: no error, every entry stored,
every other key and the ID untouched. -/
theorem setSyntheticsMonitorAttributes_spec (deps : Deps σ CI UI) (w : World σ)
    (l : List (String × String)) (hord : ∀ m, (deps.mapOrder m).Perm m)
    (hnd : (l.map Prod.fst).Nodup)
    (hs : ∀ p ∈ l, w.d.schema.lookup p.1 = some .TypeString) :
    (setSyntheticsMonitorAttributes deps w l).2 = none ∧
    (∀ p ∈ l, (setSyntheticsMonitorAttributes deps w l).1.d.attrs p.1 = some (.str p.2)) ∧
    (∀ k, k ∉ l.map Prod.fst →
      (setSyntheticsMonitorAttributes deps w l).1.d.attrs k = w.d.attrs k) ∧
    (setSyntheticsMonitorAttributes deps w l).1.d.id = w.d.id := by
  have hp := hord l
  have herr : (setAttributesInOrder w (deps.mapOrder l)).2 = none :=
    setAttributesInOrder_ok w _ (fun p hp1 => hs p (hp.mem_iff.1 hp1))
  have hnd1 : ((deps.mapOrder l).map Prod.fst).Nodup := (hp.map Prod.fst).nodup_iff.2 hnd
  refine ⟨herr, ?_, ?_, setAttributesInOrder_id w _⟩
  · intro p hp1
    exact setAttributesInOrder_get w _ hnd1 herr p (hp.mem_iff.2 hp1)
  · intro k hk
    apply setAttributesInOrder_frame
    intro hk1
    exact hk ((hp.map Prod.fst).mem_iff.1 hk1)

/-! ## The callbacks on a failing remote call -/

/-- C1. When the entity lookup of Read fails with an error of the not-found type, Read
returns no diagnostics and sets the resource ID to the empty string; that `SetId` is
its only write, so the attribute store and the schema are as on entry. -/
theorem read_not_found_clears_id (deps : Deps σ CI UI) (w : World σ)
    (providerConfig : ProviderConfig σ CI UI) (err : GoError)
    (hcall : (providerConfig.NewClient.GetEntityWithContext w.remote w.d.Id).1 = .error err)
    (hnf : err.isNotFound = true) :
    (resourceNewRelicSyntheticsBrokenLinksMonitorRead deps w providerConfig).1 = [] ∧
    (resourceNewRelicSyntheticsBrokenLinksMonitorRead deps w providerConfig).2.d.id = "" ∧
    (resourceNewRelicSyntheticsBrokenLinksMonitorRead deps w providerConfig).2.d.attrs
      = w.d.attrs ∧
    (resourceNewRelicSyntheticsBrokenLinksMonitorRead deps w providerConfig).2.d.schema
      = w.d.schema ∧
    (resourceNewRelicSyntheticsBrokenLinksMonitorRead deps w providerConfig).2.writes
      = w.writes ++ [.SetId ""] := by
  simp [resourceNewRelicSyntheticsBrokenLinksMonitorRead, hcall, hnf, World.SetId,
    World.setRemote, ResourceData.SetId]

/-- Witness of C1: a lookup that answers not-found, on a resource with ID `MTIz`
and a stored account. -/
theorem read_not_found_clears_id_witness :
    exData.id = "MTIz" ∧
    (resourceNewRelicSyntheticsBrokenLinksMonitorRead exDeps exWorld
      (exConfig exClientReject)).1 = [] ∧
    (resourceNewRelicSyntheticsBrokenLinksMonitorRead exDeps exWorld
      (exConfig exClientReject)).2.d.id = "" ∧
    (resourceNewRelicSyntheticsBrokenLinksMonitorRead exDeps exWorld
      (exConfig exClientReject)).2.d.attrs = exData.attrs ∧
    (resourceNewRelicSyntheticsBrokenLinksMonitorRead exDeps exWorld
      (exConfig exClientReject)).2.d.schema = exSchema ∧
    (resourceNewRelicSyntheticsBrokenLinksMonitorRead exDeps exWorld
      (exConfig exClientReject)).2.writes = [.SetId ""] :=
  ⟨rfl, read_not_found_clears_id exDeps exWorld (exConfig exClientReject)
    (.notFound "entity not found") rfl rfl⟩

/-- C2. Whatever error the SDK call of a callback returns (on Read: whatever error
that is not of the not-found type), the callback returns `diag.FromErr` of that
error, which is the one-element list holding an error diagnostic whose summary is
the text of the error. -/
theorem sdk_error_returned_as_diagnostics (deps : Deps σ CI UI) (w : World σ)
    (providerConfig : ProviderConfig σ CI UI) (err : GoError) :
    ((providerConfig.NewClient.SyntheticsCreateBrokenLinksMonitorWithContext w.remote
        (deps.selectAccountID providerConfig w.d)
        (deps.buildSyntheticsBrokenLinksMonitorCreateInput w.d)).1 = .error err →
      (resourceNewRelicSyntheticsBrokenLinksMonitorCreate deps w providerConfig).1
        = diag.FromErr (some err)) ∧
    ((providerConfig.NewClient.GetEntityWithContext w.remote w.d.Id).1 = .error err →
      err.isNotFound = false →
      (resourceNewRelicSyntheticsBrokenLinksMonitorRead deps w providerConfig).1
        = diag.FromErr (some err)) ∧
    ((providerConfig.NewClient.SyntheticsUpdateBrokenLinksMonitorWithContext w.remote w.d.Id
        (deps.buildSyntheticsBrokenLinksMonitorUpdateInput w.d)).1 = .error err →
      (resourceNewRelicSyntheticsBrokenLinksMonitorUpdate deps w providerConfig).1
        = diag.FromErr (some err)) ∧
    ((providerConfig.NewClient.SyntheticsDeleteMonitorWithContext w.remote w.d.Id).1
        = .error err →
      (resourceNewRelicSyntheticsBrokenLinksMonitorDelete w providerConfig).1
        = diag.FromErr (some err)) ∧
    diag.FromErr (some err)
      = [{ Severity := .Error, Summary := err.Error, Detail := "" }] := by
  refine ⟨?_, ?_, ?_, ?_, rfl⟩
  · intro h
    simp [resourceNewRelicSyntheticsBrokenLinksMonitorCreate, h]
  · intro h hnf
    simp [resourceNewRelicSyntheticsBrokenLinksMonitorRead, h, hnf]
  · intro h
    simp [resourceNewRelicSyntheticsBrokenLinksMonitorUpdate, h]
  · intro h
    simp [resourceNewRelicSyntheticsBrokenLinksMonitorDelete, h]

/-- Witness of C2: every call of the client times out. -/
theorem sdk_error_returned_as_diagnostics_witness :
    (resourceNewRelicSyntheticsBrokenLinksMonitorCreate exDeps exWorld
      (exConfig exClientFail)).1
      = [{ Severity := .Error, Summary := "timeout", Detail := "" }] ∧
    (resourceNewRelicSyntheticsBrokenLinksMonitorRead exDeps exWorld
      (exConfig exClientFail)).1
      = [{ Severity := .Error, Summary := "timeout", Detail := "" }] ∧
    (resourceNewRelicSyntheticsBrokenLinksMonitorUpdate exDeps exWorld
      (exConfig exClientFail)).1
      = [{ Severity := .Error, Summary := "timeout", Detail := "" }] ∧
    (resourceNewRelicSyntheticsBrokenLinksMonitorDelete exWorld
      (exConfig exClientFail)).1
      = [{ Severity := .Error, Summary := "timeout", Detail := "" }] :=
  have h := sdk_error_returned_as_diagnostics exDeps exWorld (exConfig exClientFail)
    (.other "timeout")
  ⟨h.1 rfl, h.2.1 rfl rfl, h.2.2.1 rfl, h.2.2.2.1 rfl⟩

/-- C9. Whenever the SDK call of Create, Read, Update or Delete returns an error (on
Read: one that is not of the not-found type), the resource data on exit, ID and
attributes, is the resource data on entry, and the callback has called neither
`SetId` nor `Set`. -/
theorem sdk_error_leaves_state_unchanged (deps : Deps σ CI UI) (w : World σ)
    (providerConfig : ProviderConfig σ CI UI) (err : GoError) :
    ((providerConfig.NewClient.SyntheticsCreateBrokenLinksMonitorWithContext w.remote
        (deps.selectAccountID providerConfig w.d)
        (deps.buildSyntheticsBrokenLinksMonitorCreateInput w.d)).1 = .error err →
      (resourceNewRelicSyntheticsBrokenLinksMonitorCreate deps w providerConfig).2.d = w.d ∧
      (resourceNewRelicSyntheticsBrokenLinksMonitorCreate deps w providerConfig).2.writes
        = w.writes) ∧
    ((providerConfig.NewClient.GetEntityWithContext w.remote w.d.Id).1 = .error err →
      err.isNotFound = false →
      (resourceNewRelicSyntheticsBrokenLinksMonitorRead deps w providerConfig).2.d = w.d ∧
      (resourceNewRelicSyntheticsBrokenLinksMonitorRead deps w providerConfig).2.writes
        = w.writes) ∧
    ((providerConfig.NewClient.SyntheticsUpdateBrokenLinksMonitorWithContext w.remote w.d.Id
        (deps.buildSyntheticsBrokenLinksMonitorUpdateInput w.d)).1 = .error err →
      (resourceNewRelicSyntheticsBrokenLinksMonitorUpdate deps w providerConfig).2.d = w.d ∧
      (resourceNewRelicSyntheticsBrokenLinksMonitorUpdate deps w providerConfig).2.writes
        = w.writes) ∧
    ((providerConfig.NewClient.SyntheticsDeleteMonitorWithContext w.remote w.d.Id).1
        = .error err →
      (resourceNewRelicSyntheticsBrokenLinksMonitorDelete w providerConfig).2.d = w.d ∧
      (resourceNewRelicSyntheticsBrokenLinksMonitorDelete w providerConfig).2.writes
        = w.writes) := by
  refine ⟨?_, ?_, ?_, ?_⟩
  · intro h
    simp [resourceNewRelicSyntheticsBrokenLinksMonitorCreate, h, World.setRemote]
  · intro h hnf
    simp [resourceNewRelicSyntheticsBrokenLinksMonitorRead, h, hnf, World.setRemote]
  · intro h
    simp [resourceNewRelicSyntheticsBrokenLinksMonitorUpdate, h, World.setRemote]
  · intro h
    simp [resourceNewRelicSyntheticsBrokenLinksMonitorDelete, h, World.setRemote]

/-- Witness of C9: every call of the client times out. -/
theorem sdk_error_leaves_state_unchanged_witness :
    (resourceNewRelicSyntheticsBrokenLinksMonitorCreate exDeps exWorld
      (exConfig exClientFail)).2.d = exData ∧
    (resourceNewRelicSyntheticsBrokenLinksMonitorRead exDeps exWorld
      (exConfig exClientFail)).2.d = exData ∧
    (resourceNewRelicSyntheticsBrokenLinksMonitorUpdate exDeps exWorld
      (exConfig exClientFail)).2.d = exData ∧
    (resourceNewRelicSyntheticsBrokenLinksMonitorDelete exWorld
      (exConfig exClientFail)).2.d = exData :=
  have h := sdk_error_leaves_state_unchanged exDeps exWorld (exConfig exClientFail)
    (.other "timeout")
  ⟨(h.1 rfl).1, (h.2.1 rfl rfl).1, (h.2.2.1 rfl).1, (h.2.2.2 rfl).1⟩

/-! ## Delete -/

/-- C5. Delete calls `d.SetId("")` if and only if the SDK delete call returns no
error. When it does, the ID on exit is empty and the returned diagnostics are empty;
when the SDK call fails, no write is made and the ID on exit is the ID on entry. So
for a resource that has an ID on entry, the ID on exit is empty exactly when the SDK
call returned no error. -/
theorem delete_clears_id_iff_success (w : World σ)
    (providerConfig : ProviderConfig σ CI UI) :
    ((resourceNewRelicSyntheticsBrokenLinksMonitorDelete w providerConfig).2.writes
        = w.writes ++ [.SetId ""] ↔
      ((providerConfig.NewClient.SyntheticsDeleteMonitorWithContext w.remote w.d.Id).1).isOk
        = true) ∧
    (((providerConfig.NewClient.SyntheticsDeleteMonitorWithContext w.remote w.d.Id).1).isOk
        = true →
      (resourceNewRelicSyntheticsBrokenLinksMonitorDelete w providerConfig).2.d.id = "" ∧
      (resourceNewRelicSyntheticsBrokenLinksMonitorDelete w providerConfig).1 = []) ∧
    (((providerConfig.NewClient.SyntheticsDeleteMonitorWithContext w.remote w.d.Id).1).isOk
        = false →
      (resourceNewRelicSyntheticsBrokenLinksMonitorDelete w providerConfig).2.writes
        = w.writes ∧
      (resourceNewRelicSyntheticsBrokenLinksMonitorDelete w providerConfig).2.d.id
        = w.d.id) ∧
    (w.d.id ≠ "" →
      ((resourceNewRelicSyntheticsBrokenLinksMonitorDelete w providerConfig).2.d.id = "" ↔
        ((providerConfig.NewClient.SyntheticsDeleteMonitorWithContext w.remote w.d.Id).1).isOk
          = true)) := by
  cases h : (providerConfig.NewClient.SyntheticsDeleteMonitorWithContext w.remote w.d.Id).1 with
  | error err =>
    simp [resourceNewRelicSyntheticsBrokenLinksMonitorDelete, h, World.setRemote, Except.isOk,
      Except.toBool]
  | ok u =>
    simp [resourceNewRelicSyntheticsBrokenLinksMonitorDelete, h, World.setRemote, World.SetId,
      ResourceData.SetId, diag.FromErr, Except.isOk, Except.toBool]

/-- Witness of C5: a delete that succeeds and a delete that times out, on a resource
with ID `MTIz`. -/
theorem delete_clears_id_iff_success_witness :
    (resourceNewRelicSyntheticsBrokenLinksMonitorDelete exWorld
      (exConfig exClientOk)).2.d.id = "" ∧
    (resourceNewRelicSyntheticsBrokenLinksMonitorDelete exWorld
      (exConfig exClientOk)).1 = [] ∧
    (resourceNewRelicSyntheticsBrokenLinksMonitorDelete exWorld
      (exConfig exClientFail)).2.writes = [] ∧
    (resourceNewRelicSyntheticsBrokenLinksMonitorDelete exWorld
      (exConfig exClientFail)).2.d.id = "MTIz" :=
  ⟨((delete_clears_id_iff_success exWorld (exConfig exClientOk)).2.1 rfl).1,
   ((delete_clears_id_iff_success exWorld (exConfig exClientOk)).2.1 rfl).2,
   ((delete_clears_id_iff_success exWorld (exConfig exClientFail)).2.2.1 rfl).1,
   ((delete_clears_id_iff_success exWorld (exConfig exClientFail)).2.2.1 rfl).2⟩

/-! ## Response error lists and entities of another type -/

/-- C8. When the SDK call of Create or Update returns no error but the error list of
the response translates to a non-empty diagnostics value, the callback returns
exactly those diagnostics and makes no write: the resource data on exit is the
resource data on entry, so Create leaves the ID as it was whatever GUID the
response carries. -/
theorem response_errors_returned_without_writes (deps : Deps σ CI UI) (w : World σ)
    (providerConfig : ProviderConfig σ CI UI) :
    (∀ resp : SyntheticsBrokenLinksMonitorCreateMutationResult,
      (providerConfig.NewClient.SyntheticsCreateBrokenLinksMonitorWithContext w.remote
        (deps.selectAccountID providerConfig w.d)
        (deps.buildSyntheticsBrokenLinksMonitorCreateInput w.d)).1 = .ok resp →
      deps.buildCreateSyntheticsMonitorResponseErrors resp.Errors ≠ [] →
      (resourceNewRelicSyntheticsBrokenLinksMonitorCreate deps w providerConfig).1
        = deps.buildCreateSyntheticsMonitorResponseErrors resp.Errors ∧
      (resourceNewRelicSyntheticsBrokenLinksMonitorCreate deps w providerConfig).2.d = w.d ∧
      (resourceNewRelicSyntheticsBrokenLinksMonitorCreate deps w providerConfig).2.writes
        = w.writes) ∧
    (∀ resp : SyntheticsBrokenLinksMonitorUpdateMutationResult,
      (providerConfig.NewClient.SyntheticsUpdateBrokenLinksMonitorWithContext w.remote w.d.Id
        (deps.buildSyntheticsBrokenLinksMonitorUpdateInput w.d)).1 = .ok resp →
      deps.buildUpdateSyntheticsMonitorResponseErrors resp.Errors ≠ [] →
      (resourceNewRelicSyntheticsBrokenLinksMonitorUpdate deps w providerConfig).1
        = deps.buildUpdateSyntheticsMonitorResponseErrors resp.Errors ∧
      (resourceNewRelicSyntheticsBrokenLinksMonitorUpdate deps w providerConfig).2.d = w.d ∧
      (resourceNewRelicSyntheticsBrokenLinksMonitorUpdate deps w providerConfig).2.writes
        = w.writes) := by
  constructor
  · intro resp h hne
    have hpos : (deps.buildCreateSyntheticsMonitorResponseErrors resp.Errors).length > 0 :=
      List.length_pos.2 hne
    simp [resourceNewRelicSyntheticsBrokenLinksMonitorCreate, h, hpos, World.setRemote]
  · intro resp h hne
    have hpos : (deps.buildUpdateSyntheticsMonitorResponseErrors resp.Errors).length > 0 :=
      List.length_pos.2 hne
    simp [resourceNewRelicSyntheticsBrokenLinksMonitorUpdate, h, hpos, World.setRemote]

/-- Witness of C8: the mutations answer with one error next to a monitor with GUID
`GUID-1`; the ID stays `MTIz`. -/
theorem response_errors_returned_without_writes_witness :
    (resourceNewRelicSyntheticsBrokenLinksMonitorCreate exDeps exWorld
      (exConfig exClientReject)).1
      = [{ Severity := .Error, Summary := "BAD_REQUEST uri is not valid", Detail := "" }] ∧
    (resourceNewRelicSyntheticsBrokenLinksMonitorCreate exDeps exWorld
      (exConfig exClientReject)).2.d = exData ∧
    (resourceNewRelicSyntheticsBrokenLinksMonitorUpdate exDeps exWorld
      (exConfig exClientReject)).1
      = [{ Severity := .Error, Summary := "BAD_REQUEST uri is not valid", Detail := "" }] ∧
    (resourceNewRelicSyntheticsBrokenLinksMonitorUpdate exDeps exWorld
      (exConfig exClientReject)).2.d = exData :=
  have h := response_errors_returned_without_writes exDeps exWorld (exConfig exClientReject)
  have hc := h.1 { Errors := [exResponseError], Monitor := exMonitor } rfl (by decide)
  have hu := h.2 { Errors := [exResponseError], Monitor := exMonitor } rfl (by decide)
  ⟨by simpa [exDeps, exResponseError] using hc.1, hc.2.1,
   by simpa [exDeps, exResponseError] using hu.1, hu.2.1⟩

/-- C10. When the entity lookup of Read succeeds and the entity is of a type other
than the synthetic-monitor entity, Read returns no diagnostics and makes no write:
the resource data on exit, ID and attributes, is the resource data on entry. -/
theorem read_other_entity_leaves_state (deps : Deps σ CI UI) (w : World σ)
    (providerConfig : ProviderConfig σ CI UI) (typeName : String)
    (hcall : (providerConfig.NewClient.GetEntityWithContext w.remote w.d.Id).1
      = .ok (.otherEntity typeName)) :
    (resourceNewRelicSyntheticsBrokenLinksMonitorRead deps w providerConfig).1 = [] ∧
    (resourceNewRelicSyntheticsBrokenLinksMonitorRead deps w providerConfig).2.d = w.d ∧
    (resourceNewRelicSyntheticsBrokenLinksMonitorRead deps w providerConfig).2.writes
      = w.writes := by
  simp [resourceNewRelicSyntheticsBrokenLinksMonitorRead, hcall, World.setRemote, diag.FromErr]

/-- Witness of C10: the lookup returns a dashboard entity. -/
theorem read_other_entity_leaves_state_witness :
    (resourceNewRelicSyntheticsBrokenLinksMonitorRead exDeps exWorld
      (exConfig exClientOther)).1 = [] ∧
    (resourceNewRelicSyntheticsBrokenLinksMonitorRead exDeps exWorld
      (exConfig exClientOther)).2.d = exData ∧
    (resourceNewRelicSyntheticsBrokenLinksMonitorRead exDeps exWorld
      (exConfig exClientOther)).2.writes = [] :=
  read_other_entity_leaves_state exDeps exWorld (exConfig exClientOther)
    "DashboardEntity" rfl

/-! ## Remote calls -/

/-- Create leaves the remote service in the state its one call leads to. -/
theorem remote_after_create (deps : Deps σ CI UI) (w : World σ)
    (providerConfig : ProviderConfig σ CI UI) :
    (resourceNewRelicSyntheticsBrokenLinksMonitorCreate deps w providerConfig).2.remote
      = (providerConfig.NewClient.SyntheticsCreateBrokenLinksMonitorWithContext w.remote
          (deps.selectAccountID providerConfig w.d)
          (deps.buildSyntheticsBrokenLinksMonitorCreateInput w.d)).2 := by
  unfold resourceNewRelicSyntheticsBrokenLinksMonitorCreate
  simp only
  split
  · rfl
  · split
    · rfl
    · simp only [setSyntheticsMonitorAttributes, setAttributesInOrder_remote]
      rfl

/-- Read leaves the remote service in the state its one call leads to. -/
theorem remote_after_read (deps : Deps σ CI UI) (w : World σ)
    (providerConfig : ProviderConfig σ CI UI) :
    (resourceNewRelicSyntheticsBrokenLinksMonitorRead deps w providerConfig).2.remote
      = (providerConfig.NewClient.GetEntityWithContext w.remote w.d.Id).2 := by
  unfold resourceNewRelicSyntheticsBrokenLinksMonitorRead
  simp only
  split
  · split <;> rfl
  · split
    · simp only [setSyntheticsMonitorAttributes, setAttributesInOrder_remote]
      rfl
    · rfl

/-- Update leaves the remote service in the state its one call leads to. -/
theorem remote_after_update (deps : Deps σ CI UI) (w : World σ)
    (providerConfig : ProviderConfig σ CI UI) :
    (resourceNewRelicSyntheticsBrokenLinksMonitorUpdate deps w providerConfig).2.remote
      = (providerConfig.NewClient.SyntheticsUpdateBrokenLinksMonitorWithContext w.remote
          w.d.Id (deps.buildSyntheticsBrokenLinksMonitorUpdateInput w.d)).2 := by
  unfold resourceNewRelicSyntheticsBrokenLinksMonitorUpdate
  simp only
  split
  · rfl
  · split
    · rfl
    · simp only [setSyntheticsMonitorAttributes, setAttributesInOrder_remote]
      rfl

/-- Delete leaves the remote service in the state its one call leads to. -/
theorem remote_after_delete (w : World σ) (providerConfig : ProviderConfig σ CI UI) :
    (resourceNewRelicSyntheticsBrokenLinksMonitorDelete w providerConfig).2.remote
      = (providerConfig.NewClient.SyntheticsDeleteMonitorWithContext w.remote w.d.Id).2 := by
  unfold resourceNewRelicSyntheticsBrokenLinksMonitorDelete
  simp only
  split <;> rfl

/-- C6. Each of the four callbacks issues exactly one remote SDK call, whatever the
client answers. First, against any client and from any state of the remote service,
a callback leaves the service in the state that one call of its endpoint, with its
arguments, leads to from the state on entry. Second, against the logged form of any
client and from any log, a callback leaves the log of the client as the log on entry
followed by that one call, and the service behind it one call further: a failed call
is not repeated and no other endpoint is called. The log is kept by the client, which
appends to it at every call it receives. -/
theorem exactly_one_remote_call (providerConfig : ProviderConfig σ CI UI) :
    (∀ (deps : Deps σ CI UI) (w : World σ),
      (resourceNewRelicSyntheticsBrokenLinksMonitorCreate deps w providerConfig).2.remote
        = (providerConfig.NewClient.SyntheticsCreateBrokenLinksMonitorWithContext w.remote
            (deps.selectAccountID providerConfig w.d)
            (deps.buildSyntheticsBrokenLinksMonitorCreateInput w.d)).2 ∧
      (resourceNewRelicSyntheticsBrokenLinksMonitorRead deps w providerConfig).2.remote
        = (providerConfig.NewClient.GetEntityWithContext w.remote w.d.Id).2 ∧
      (resourceNewRelicSyntheticsBrokenLinksMonitorUpdate deps w providerConfig).2.remote
        = (providerConfig.NewClient.SyntheticsUpdateBrokenLinksMonitorWithContext w.remote
            w.d.Id (deps.buildSyntheticsBrokenLinksMonitorUpdateInput w.d)).2 ∧
      (resourceNewRelicSyntheticsBrokenLinksMonitorDelete w providerConfig).2.remote
        = (providerConfig.NewClient.SyntheticsDeleteMonitorWithContext w.remote w.d.Id).2) ∧
    (∀ (deps : Deps (σ × List (Request CI UI)) CI UI)
        (w : World (σ × List (Request CI UI))),
      (resourceNewRelicSyntheticsBrokenLinksMonitorCreate deps w
          providerConfig.logged).2.remote
        = ((providerConfig.NewClient.SyntheticsCreateBrokenLinksMonitorWithContext
              w.remote.1 (deps.selectAccountID providerConfig.logged w.d)
              (deps.buildSyntheticsBrokenLinksMonitorCreateInput w.d)).2,
           w.remote.2 ++ [.SyntheticsCreateBrokenLinksMonitor
              (deps.selectAccountID providerConfig.logged w.d)
              (deps.buildSyntheticsBrokenLinksMonitorCreateInput w.d)]) ∧
      (resourceNewRelicSyntheticsBrokenLinksMonitorRead deps w
          providerConfig.logged).2.remote
        = ((providerConfig.NewClient.GetEntityWithContext w.remote.1 w.d.Id).2,
           w.remote.2 ++ [.GetEntity w.d.Id]) ∧
      (resourceNewRelicSyntheticsBrokenLinksMonitorUpdate deps w
          providerConfig.logged).2.remote
        = ((providerConfig.NewClient.SyntheticsUpdateBrokenLinksMonitorWithContext
              w.remote.1 w.d.Id (deps.buildSyntheticsBrokenLinksMonitorUpdateInput w.d)).2,
           w.remote.2 ++ [.SyntheticsUpdateBrokenLinksMonitor w.d.Id
              (deps.buildSyntheticsBrokenLinksMonitorUpdateInput w.d)]) ∧
      (resourceNewRelicSyntheticsBrokenLinksMonitorDelete w
          providerConfig.logged).2.remote
        = ((providerConfig.NewClient.SyntheticsDeleteMonitorWithContext w.remote.1
              w.d.Id).2,
           w.remote.2 ++ [.SyntheticsDeleteMonitor w.d.Id])) := by
  constructor
  · intro deps w
    exact ⟨remote_after_create deps w providerConfig, remote_after_read deps w providerConfig,
      remote_after_update deps w providerConfig, remote_after_delete w providerConfig⟩
  · intro deps w
    exact ⟨remote_after_create deps w providerConfig.logged,
      remote_after_read deps w providerConfig.logged,
      remote_after_update deps w providerConfig.logged,
      remote_after_delete w providerConfig.logged⟩

/-- Witness of C6: a service that has answered no call, behind a client whose first
answer is a timeout and whose later answers are successes. Each callback returns the
timeout, and on exit the service has answered one call and the log holds one call. -/
theorem exactly_one_remote_call_witness :
    (resourceNewRelicSyntheticsBrokenLinksMonitorCreate exDeps exWorldLogged
      (exConfig exClientFlaky).logged).2.remote
      = (1, [.SyntheticsCreateBrokenLinksMonitor 42 "create:MTIz"]) ∧
    (resourceNewRelicSyntheticsBrokenLinksMonitorRead exDeps exWorldLogged
      (exConfig exClientFlaky).logged).2.remote = (1, [.GetEntity "MTIz"]) ∧
    (resourceNewRelicSyntheticsBrokenLinksMonitorUpdate exDeps exWorldLogged
      (exConfig exClientFlaky).logged).2.remote
      = (1, [.SyntheticsUpdateBrokenLinksMonitor "MTIz" "update:MTIz"]) ∧
    (resourceNewRelicSyntheticsBrokenLinksMonitorDelete exWorldLogged
      (exConfig exClientFlaky).logged).2.remote = (1, [.SyntheticsDeleteMonitor "MTIz"]) ∧
    (resourceNewRelicSyntheticsBrokenLinksMonitorDelete exWorldLogged
      (exConfig exClientFlaky).logged).1
      = [{ Severity := .Error, Summary := "timeout", Detail := "" }] ∧
    (resourceNewRelicSyntheticsBrokenLinksMonitorDelete exWorld
      (exConfig exClientOk)).2.remote = 1 :=
  ⟨((exactly_one_remote_call (exConfig exClientFlaky)).2 exDeps exWorldLogged).1,
   ((exactly_one_remote_call (exConfig exClientFlaky)).2 exDeps exWorldLogged).2.1,
   ((exactly_one_remote_call (exConfig exClientFlaky)).2 exDeps exWorldLogged).2.2.1,
   ((exactly_one_remote_call (exConfig exClientFlaky)).2 exDeps exWorldLogged).2.2.2,
   rfl,
   ((exactly_one_remote_call (exConfig exClientOk)).1 exDeps exWorld).2.2.2⟩

/-! ## The callbacks on a successful remote call -/

/-- The keys of the attribute map of Create and Update are distinct. -/
theorem monitorAttributes_keys_nodup (guid name period status uri : String) :
    (([("guid", guid), ("name", name), ("period", period), ("status", status),
       ("uri", uri)] : List (String × String)).map Prod.fst).Nodup := by
  simp only [List.map_cons, List.map_nil]
  decide

/-- The schema lookups behind `declaresMonitorAttributes`. -/
theorem declaresMonitorAttributes_lookup (s : Schema)
    (h : declaresMonitorAttributes s = true) :
    s.lookup "uri" = some .TypeString ∧ s.lookup "guid" = some .TypeString ∧
    s.lookup "name" = some .TypeString ∧ s.lookup "period" = some .TypeString ∧
    s.lookup "status" = some .TypeString ∧ s.lookup "account_id" = some .TypeInt ∧
    s.lookup "locations_public" = some .TypeSet := by
  simpa [declaresMonitorAttributes, and_assoc] using h

/-- On a schema that declares the monitor attributes, the attribute-setting step
returns no error, stores the five attributes, and leaves the ID and every other
attribute as they were. -/
theorem setSyntheticsMonitorAttributes_monitor (deps : Deps σ CI UI) (w : World σ)
    (guid name period status uri : String)
    (hord : ∀ m, (deps.mapOrder m).Perm m)
    (hschema : declaresMonitorAttributes w.d.schema = true) :
    (setSyntheticsMonitorAttributes deps w [("guid", guid), ("name", name),
      ("period", period), ("status", status), ("uri", uri)]).2 = none ∧
    (setSyntheticsMonitorAttributes deps w [("guid", guid), ("name", name),
      ("period", period), ("status", status), ("uri", uri)]).1.d.attrs "guid"
      = some (.str guid) ∧
    (setSyntheticsMonitorAttributes deps w [("guid", guid), ("name", name),
      ("period", period), ("status", status), ("uri", uri)]).1.d.attrs "name"
      = some (.str name) ∧
    (setSyntheticsMonitorAttributes deps w [("guid", guid), ("name", name),
      ("period", period), ("status", status), ("uri", uri)]).1.d.attrs "period"
      = some (.str period) ∧
    (setSyntheticsMonitorAttributes deps w [("guid", guid), ("name", name),
      ("period", period), ("status", status), ("uri", uri)]).1.d.attrs "status"
      = some (.str status) ∧
    (setSyntheticsMonitorAttributes deps w [("guid", guid), ("name", name),
      ("period", period), ("status", status), ("uri", uri)]).1.d.attrs "uri"
      = some (.str uri) ∧
    (setSyntheticsMonitorAttributes deps w [("guid", guid), ("name", name),
      ("period", period), ("status", status), ("uri", uri)]).1.d.attrs "account_id"
      = w.d.attrs "account_id" ∧
    (setSyntheticsMonitorAttributes deps w [("guid", guid), ("name", name),
      ("period", period), ("status", status), ("uri", uri)]).1.d.attrs "locations_public"
      = w.d.attrs "locations_public" ∧
    (setSyntheticsMonitorAttributes deps w [("guid", guid), ("name", name),
      ("period", period), ("status", status), ("uri", uri)]).1.d.id = w.d.id := by
  obtain ⟨h1, h2, h3, h4, h5, -, -⟩ := declaresMonitorAttributes_lookup _ hschema
  have hs : ∀ p ∈ ([("guid", guid), ("name", name), ("period", period),
      ("status", status), ("uri", uri)] : List (String × String)),
      w.d.schema.lookup p.1 = some .TypeString := by
    intro p hp
    simp only [List.mem_cons, List.mem_singleton, List.not_mem_nil, or_false] at hp
    rcases hp with rfl | rfl | rfl | rfl | rfl <;> assumption
  obtain ⟨herr, hget, hframe, hid⟩ := setSyntheticsMonitorAttributes_spec deps w _ hord
    (monitorAttributes_keys_nodup guid name period status uri) hs
  refine ⟨herr, hget ("guid", guid) (by simp), hget ("name", name) (by simp),
    hget ("period", period) (by simp), hget ("status", status) (by simp),
    hget ("uri", uri) (by simp),
    hframe "account_id" (by simp only [List.map_cons, List.map_nil]; decide),
    hframe "locations_public" (by simp only [List.map_cons, List.map_nil]; decide), hid⟩

/-- The state of Create and Read after `d.SetId(guid)` and `d.Set("account_id", n)`
on a schema that declares the monitor attributes. -/
theorem setId_setAccount (w : World σ) (guid : String) (n : Int)
    (hschema : declaresMonitorAttributes w.d.schema = true) :
    ((w.SetId guid).Set "account_id" (.int n)).1.d.schema = w.d.schema ∧
    ((w.SetId guid).Set "account_id" (.int n)).1.d.id = guid ∧
    ((w.SetId guid).Set "account_id" (.int n)).1.d.attrs "account_id" = some (.int n) ∧
    ((w.SetId guid).Set "account_id" (.int n)).1.remote = w.remote := by
  obtain ⟨-, -, -, -, -, h6, -⟩ := declaresMonitorAttributes_lookup _ hschema
  refine ⟨ResourceData.Set_schema _ _ _, ?_, ?_, rfl⟩
  · exact (ResourceData.Set_id _ _ _).trans rfl
  · exact (ResourceData.Set_declared (w.SetId guid).d "account_id" (.int n) .TypeInt (.int n)
      h6 rfl).2

/-- C3. When the SDK call of Create returns a response and no error, and the error
list of the response translates to no diagnostics, then on a resource whose schema
declares the monitor attributes and for any order of ranging over the attribute map:
the ID on exit is the GUID of the response monitor, `account_id` is the selected
account ID, `guid`, `name`, `period`, `status` and `uri` are the GUID, Name, Period,
Status and Uri of the response monitor, and the returned diagnostics are those of
the error of `setSyntheticsMonitorAttributes` (here none). -/
theorem create_success_sets_state (deps : Deps σ CI UI) (w : World σ)
    (providerConfig : ProviderConfig σ CI UI)
    (resp : SyntheticsBrokenLinksMonitorCreateMutationResult)
    (hcall : (providerConfig.NewClient.SyntheticsCreateBrokenLinksMonitorWithContext w.remote
      (deps.selectAccountID providerConfig w.d)
      (deps.buildSyntheticsBrokenLinksMonitorCreateInput w.d)).1 = .ok resp)
    (herrs : deps.buildCreateSyntheticsMonitorResponseErrors resp.Errors = [])
    (hord : ∀ m, (deps.mapOrder m).Perm m)
    (hschema : declaresMonitorAttributes w.d.schema = true) :
    (resourceNewRelicSyntheticsBrokenLinksMonitorCreate deps w providerConfig).2.d.id
      = resp.Monitor.GUID ∧
    (resourceNewRelicSyntheticsBrokenLinksMonitorCreate deps w providerConfig).2.d.attrs
      "account_id" = some (.int (deps.selectAccountID providerConfig w.d)) ∧
    (resourceNewRelicSyntheticsBrokenLinksMonitorCreate deps w providerConfig).2.d.attrs
      "guid" = some (.str resp.Monitor.GUID) ∧
    (resourceNewRelicSyntheticsBrokenLinksMonitorCreate deps w providerConfig).2.d.attrs
      "name" = some (.str resp.Monitor.Name) ∧
    (resourceNewRelicSyntheticsBrokenLinksMonitorCreate deps w providerConfig).2.d.attrs
      "period" = some (.str resp.Monitor.Period) ∧
    (resourceNewRelicSyntheticsBrokenLinksMonitorCreate deps w providerConfig).2.d.attrs
      "status" = some (.str resp.Monitor.Status) ∧
    (resourceNewRelicSyntheticsBrokenLinksMonitorCreate deps w providerConfig).2.d.attrs
      "uri" = some (.str resp.Monitor.Uri) ∧
    (resourceNewRelicSyntheticsBrokenLinksMonitorCreate deps w providerConfig).1
      = diag.FromErr (setSyntheticsMonitorAttributes deps
          (((w.setRemote (providerConfig.NewClient.SyntheticsCreateBrokenLinksMonitorWithContext
      w.remote (deps.selectAccountID providerConfig w.d)
      (deps.buildSyntheticsBrokenLinksMonitorCreateInput w.d)).2).SetId
            resp.Monitor.GUID).Set "account_id"
              (.int (deps.selectAccountID providerConfig w.d))).1
          [("guid", resp.Monitor.GUID), ("name", resp.Monitor.Name),
           ("period", resp.Monitor.Period), ("status", resp.Monitor.Status),
           ("uri", resp.Monitor.Uri)]).2 ∧
    (resourceNewRelicSyntheticsBrokenLinksMonitorCreate deps w providerConfig).1 = [] := by
  obtain ⟨hs, hid, hacc, -⟩ := setId_setAccount
    (w.setRemote (providerConfig.NewClient.SyntheticsCreateBrokenLinksMonitorWithContext
      w.remote (deps.selectAccountID providerConfig w.d)
      (deps.buildSyntheticsBrokenLinksMonitorCreateInput w.d)).2)
    resp.Monitor.GUID (deps.selectAccountID providerConfig w.d) hschema
  obtain ⟨herr, hg, hn, hp, hst, hu, ha, -, hi⟩ := setSyntheticsMonitorAttributes_monitor deps
    (((w.setRemote (providerConfig.NewClient.SyntheticsCreateBrokenLinksMonitorWithContext
      w.remote (deps.selectAccountID providerConfig w.d)
      (deps.buildSyntheticsBrokenLinksMonitorCreateInput w.d)).2).SetId
        resp.Monitor.GUID).Set "account_id"
          (.int (deps.selectAccountID providerConfig w.d))).1
    resp.Monitor.GUID resp.Monitor.Name resp.Monitor.Period resp.Monitor.Status
    resp.Monitor.Uri hord (by rw [hs]; exact hschema)
  have hdef : resourceNewRelicSyntheticsBrokenLinksMonitorCreate deps w providerConfig
      = (diag.FromErr (setSyntheticsMonitorAttributes deps
          (((w.setRemote (providerConfig.NewClient.SyntheticsCreateBrokenLinksMonitorWithContext
      w.remote (deps.selectAccountID providerConfig w.d)
      (deps.buildSyntheticsBrokenLinksMonitorCreateInput w.d)).2).SetId
            resp.Monitor.GUID).Set "account_id"
              (.int (deps.selectAccountID providerConfig w.d))).1
          [("guid", resp.Monitor.GUID), ("name", resp.Monitor.Name),
           ("period", resp.Monitor.Period), ("status", resp.Monitor.Status),
           ("uri", resp.Monitor.Uri)]).2,
         (setSyntheticsMonitorAttributes deps
          (((w.setRemote (providerConfig.NewClient.SyntheticsCreateBrokenLinksMonitorWithContext
      w.remote (deps.selectAccountID providerConfig w.d)
      (deps.buildSyntheticsBrokenLinksMonitorCreateInput w.d)).2).SetId
            resp.Monitor.GUID).Set "account_id"
              (.int (deps.selectAccountID providerConfig w.d))).1
          [("guid", resp.Monitor.GUID), ("name", resp.Monitor.Name),
           ("period", resp.Monitor.Period), ("status", resp.Monitor.Status),
           ("uri", resp.Monitor.Uri)]).1) := by
    simp only [resourceNewRelicSyntheticsBrokenLinksMonitorCreate, hcall, herrs,
      List.length_nil, gt_iff_lt, lt_self_iff_false, if_false]
  rw [hdef]
  exact ⟨hi.trans hid, ha.trans hacc, hg, hn, hp, hst, hu, rfl, by rw [herr]; rfl⟩

/-- Witness of C3: a create that succeeds with monitor `GUID-1`, on a resource with a
stored account 42, ranging over the attribute map in reverse order. -/
theorem create_success_sets_state_witness :
    declaresMonitorAttributes exWorld.d.schema = true ∧
    (resourceNewRelicSyntheticsBrokenLinksMonitorCreate exDeps exWorld
      (exConfig exClientOk)).2.d.id = "GUID-1" ∧
    (resourceNewRelicSyntheticsBrokenLinksMonitorCreate exDeps exWorld
      (exConfig exClientOk)).2.d.attrs "account_id" = some (.int 42) ∧
    (resourceNewRelicSyntheticsBrokenLinksMonitorCreate exDeps exWorld
      (exConfig exClientOk)).2.d.attrs "guid" = some (.str "GUID-1") ∧
    (resourceNewRelicSyntheticsBrokenLinksMonitorCreate exDeps exWorld
      (exConfig exClientOk)).2.d.attrs "name" = some (.str "links") ∧
    (resourceNewRelicSyntheticsBrokenLinksMonitorCreate exDeps exWorld
      (exConfig exClientOk)).2.d.attrs "period" = some (.str "EVERY_HOUR") ∧
    (resourceNewRelicSyntheticsBrokenLinksMonitorCreate exDeps exWorld
      (exConfig exClientOk)).2.d.attrs "status" = some (.str "ENABLED") ∧
    (resourceNewRelicSyntheticsBrokenLinksMonitorCreate exDeps exWorld
      (exConfig exClientOk)).2.d.attrs "uri" = some (.str "https://example.com") ∧
    (resourceNewRelicSyntheticsBrokenLinksMonitorCreate exDeps exWorld
      (exConfig exClientOk)).1 = [] :=
  have h := create_success_sets_state exDeps exWorld (exConfig exClientOk)
    { Errors := [], Monitor := exMonitor } rfl rfl (fun m => List.reverse_perm m) (by decide)
  ⟨by decide, h.1, h.2.1, h.2.2.1, h.2.2.2.1, h.2.2.2.2.1, h.2.2.2.2.2.1,
    h.2.2.2.2.2.2.1, h.2.2.2.2.2.2.2.2⟩

/-- The state of Read after `d.SetId(guid)`, `d.Set("account_id", n)` and
`d.Set("locations_public", locations)` on a schema that declares the monitor
attributes: the store holds the set of the locations. -/
theorem setId_setAccount_setLocations (w : World σ) (guid : String) (n : Int)
    (locations : List String) (hschema : declaresMonitorAttributes w.d.schema = true) :
    (((w.SetId guid).Set "account_id" (.int n)).1.Set "locations_public"
      (.strs locations)).1.d.schema = w.d.schema ∧
    (((w.SetId guid).Set "account_id" (.int n)).1.Set "locations_public"
      (.strs locations)).1.d.id = guid ∧
    (((w.SetId guid).Set "account_id" (.int n)).1.Set "locations_public"
      (.strs locations)).1.d.attrs "account_id" = some (.int n) ∧
    (((w.SetId guid).Set "account_id" (.int n)).1.Set "locations_public"
      (.strs locations)).1.d.attrs "locations_public" = some (.set locations.toFinset) := by
  obtain ⟨hs, hid, hacc, -⟩ := setId_setAccount w guid n hschema
  obtain ⟨-, -, -, -, -, -, h7⟩ := declaresMonitorAttributes_lookup _ hschema
  refine ⟨(ResourceData.Set_schema _ _ _).trans hs, (ResourceData.Set_id _ _ _).trans hid,
    ?_, ?_⟩
  · exact (ResourceData.Set_other _ _ _ "account_id" (by decide)).trans hacc
  · exact (ResourceData.Set_declared _ "locations_public" (.strs locations) .TypeSet
      (.set locations.toFinset)
      (by rw [← h7]; exact congrArg (fun s => List.lookup "locations_public" s) hs) rfl).2

/-- C4. When the entity lookup of Read succeeds and returns a synthetic-monitor
entity, then on a resource whose schema declares the monitor attributes and for any
order of ranging over the attribute map: the ID and `guid` on exit are the GUID of
the entity, `account_id` is the selected account ID, `locations_public` is the set of
the public locations that `getPublicLocationsFromEntityTags` derives from the tags of
the entity (a location is in the stored set exactly when it is in the derived slice;
the store keeps neither the order of the slice nor how often it names a location),
`name`, `status` and `uri` are its Name, MonitorSummary.Status and MonitoredURL, and
`period` is the entry of `syntheticsMonitorPeriodValueMap` at the integer period of
the entity (a Go map index: the empty string when the map has no such key). -/
theorem read_success_sets_state (deps : Deps σ CI UI) (w : World σ)
    (providerConfig : ProviderConfig σ CI UI) (e : SyntheticMonitorEntity)
    (hcall : (providerConfig.NewClient.GetEntityWithContext w.remote w.d.Id).1
      = .ok (.syntheticMonitorEntity e))
    (hord : ∀ m, (deps.mapOrder m).Perm m)
    (hschema : declaresMonitorAttributes w.d.schema = true) :
    (resourceNewRelicSyntheticsBrokenLinksMonitorRead deps w providerConfig).2.d.id
      = e.GUID ∧
    (resourceNewRelicSyntheticsBrokenLinksMonitorRead deps w providerConfig).2.d.attrs
      "guid" = some (.str e.GUID) ∧
    (resourceNewRelicSyntheticsBrokenLinksMonitorRead deps w providerConfig).2.d.attrs
      "account_id" = some (.int (deps.selectAccountID providerConfig w.d)) ∧
    (resourceNewRelicSyntheticsBrokenLinksMonitorRead deps w providerConfig).2.d.attrs
      "locations_public"
      = some (.set (deps.getPublicLocationsFromEntityTags e.Tags).toFinset) ∧
    (∃ stored : Finset String,
      (resourceNewRelicSyntheticsBrokenLinksMonitorRead deps w providerConfig).2.d.attrs
        "locations_public" = some (.set stored) ∧
      ∀ location, location ∈ stored ↔
        location ∈ deps.getPublicLocationsFromEntityTags e.Tags) ∧
    (resourceNewRelicSyntheticsBrokenLinksMonitorRead deps w providerConfig).2.d.attrs
      "name" = some (.str e.Name) ∧
    (resourceNewRelicSyntheticsBrokenLinksMonitorRead deps w providerConfig).2.d.attrs
      "status" = some (.str e.MonitorSummaryStatus) ∧
    (resourceNewRelicSyntheticsBrokenLinksMonitorRead deps w providerConfig).2.d.attrs
      "uri" = some (.str e.MonitoredURL) ∧
    (resourceNewRelicSyntheticsBrokenLinksMonitorRead deps w providerConfig).2.d.attrs
      "period" = some (.str (goMapIndex deps.syntheticsMonitorPeriodValueMap e.Period)) ∧
    (∀ v, deps.syntheticsMonitorPeriodValueMap.lookup e.Period = some v →
      (resourceNewRelicSyntheticsBrokenLinksMonitorRead deps w providerConfig).2.d.attrs
        "period" = some (.str v)) := by
  obtain ⟨hs, hid, hacc, hloc⟩ := setId_setAccount_setLocations
    (w.setRemote (providerConfig.NewClient.GetEntityWithContext w.remote w.d.Id).2) e.GUID
    (deps.selectAccountID providerConfig w.d)
    (deps.getPublicLocationsFromEntityTags e.Tags) hschema
  obtain ⟨-, hg, hn, hp, hst, hu, ha, hl, hi⟩ := setSyntheticsMonitorAttributes_monitor deps
    ((((w.setRemote
        (providerConfig.NewClient.GetEntityWithContext w.remote w.d.Id).2).SetId e.GUID).Set
      "account_id"
      (.int (deps.selectAccountID providerConfig w.d))).1.Set "locations_public"
      (.strs (deps.getPublicLocationsFromEntityTags e.Tags))).1
    e.GUID e.Name (goMapIndex deps.syntheticsMonitorPeriodValueMap e.Period)
    e.MonitorSummaryStatus e.MonitoredURL hord (by rw [hs]; exact hschema)
  have hdef : (resourceNewRelicSyntheticsBrokenLinksMonitorRead deps w providerConfig).2
      = (setSyntheticsMonitorAttributes deps
          ((((w.setRemote
              (providerConfig.NewClient.GetEntityWithContext w.remote w.d.Id).2).SetId
            e.GUID).Set "account_id"
            (.int (deps.selectAccountID providerConfig w.d))).1.Set "locations_public"
            (.strs (deps.getPublicLocationsFromEntityTags e.Tags))).1
          [("guid", e.GUID), ("name", e.Name),
           ("period", goMapIndex deps.syntheticsMonitorPeriodValueMap e.Period),
           ("status", e.MonitorSummaryStatus), ("uri", e.MonitoredURL)]).1 := by
    simp only [resourceNewRelicSyntheticsBrokenLinksMonitorRead, hcall]
  rw [hdef]
  refine ⟨hi.trans hid, hg, ha.trans hacc, hl.trans hloc,
    ⟨_, hl.trans hloc, fun location => List.mem_toFinset⟩, hn, hst, hu, hp, ?_⟩
  intro v hv
  rw [hp]
  simp [goMapIndex, hv]

/-- Witness of C4: a lookup that returns a synthetic-monitor entity with period 60
whose tags name the public location `US_EAST_1` twice and `EU_WEST_1` once. -/
theorem read_success_sets_state_witness :
    (resourceNewRelicSyntheticsBrokenLinksMonitorRead exDeps exWorld
      (exConfig exClientOk)).2.d.id = "GUID-1" ∧
    (resourceNewRelicSyntheticsBrokenLinksMonitorRead exDeps exWorld
      (exConfig exClientOk)).2.d.attrs "guid" = some (.str "GUID-1") ∧
    (resourceNewRelicSyntheticsBrokenLinksMonitorRead exDeps exWorld
      (exConfig exClientOk)).2.d.attrs "account_id" = some (.int 42) ∧
    (resourceNewRelicSyntheticsBrokenLinksMonitorRead exDeps exWorld
      (exConfig exClientOk)).2.d.attrs "locations_public"
      = some (.set {"EU_WEST_1", "US_EAST_1"}) ∧
    (resourceNewRelicSyntheticsBrokenLinksMonitorRead exDeps exWorld
      (exConfig exClientOk)).2.d.attrs "name" = some (.str "links") ∧
    (resourceNewRelicSyntheticsBrokenLinksMonitorRead exDeps exWorld
      (exConfig exClientOk)).2.d.attrs "status" = some (.str "SUCCESS") ∧
    (resourceNewRelicSyntheticsBrokenLinksMonitorRead exDeps exWorld
      (exConfig exClientOk)).2.d.attrs "uri" = some (.str "https://example.com") ∧
    (resourceNewRelicSyntheticsBrokenLinksMonitorRead exDeps exWorld
      (exConfig exClientOk)).2.d.attrs "period" = some (.str "EVERY_HOUR") :=
  have h := read_success_sets_state exDeps exWorld (exConfig exClientOk) exEntity rfl
    (fun m => List.reverse_perm m) (by decide)
  ⟨h.1, h.2.1, h.2.2.1, h.2.2.2.1.trans (by decide), h.2.2.2.2.2.1, h.2.2.2.2.2.2.1,
    h.2.2.2.2.2.2.2.1, h.2.2.2.2.2.2.2.2.2 "EVERY_HOUR" (by decide)⟩

/-- C7. When the SDK call of Update returns a response and no error, and the error
list of the response translates to no diagnostics, then on a resource whose schema
declares the monitor attributes and for any order of ranging over the attribute map:
`guid`, `name`, `period`, `status` and `uri` on exit are the GUID, Name, Period,
Status and Uri of the response monitor, the ID and `account_id` are as on entry, and
Update has not called `SetId`. -/
theorem update_success_sets_attributes (deps : Deps σ CI UI) (w : World σ)
    (providerConfig : ProviderConfig σ CI UI)
    (resp : SyntheticsBrokenLinksMonitorUpdateMutationResult)
    (hcall : (providerConfig.NewClient.SyntheticsUpdateBrokenLinksMonitorWithContext w.remote w.d.Id
      (deps.buildSyntheticsBrokenLinksMonitorUpdateInput w.d)).1 = .ok resp)
    (herrs : deps.buildUpdateSyntheticsMonitorResponseErrors resp.Errors = [])
    (hord : ∀ m, (deps.mapOrder m).Perm m)
    (hschema : declaresMonitorAttributes w.d.schema = true) :
    (resourceNewRelicSyntheticsBrokenLinksMonitorUpdate deps w providerConfig).2.d.attrs
      "guid" = some (.str resp.Monitor.GUID) ∧
    (resourceNewRelicSyntheticsBrokenLinksMonitorUpdate deps w providerConfig).2.d.attrs
      "name" = some (.str resp.Monitor.Name) ∧
    (resourceNewRelicSyntheticsBrokenLinksMonitorUpdate deps w providerConfig).2.d.attrs
      "period" = some (.str resp.Monitor.Period) ∧
    (resourceNewRelicSyntheticsBrokenLinksMonitorUpdate deps w providerConfig).2.d.attrs
      "status" = some (.str resp.Monitor.Status) ∧
    (resourceNewRelicSyntheticsBrokenLinksMonitorUpdate deps w providerConfig).2.d.attrs
      "uri" = some (.str resp.Monitor.Uri) ∧
    (resourceNewRelicSyntheticsBrokenLinksMonitorUpdate deps w providerConfig).2.d.id
      = w.d.id ∧
    (resourceNewRelicSyntheticsBrokenLinksMonitorUpdate deps w providerConfig).2.d.attrs
      "account_id" = w.d.attrs "account_id" := by
  obtain ⟨-, hg, hn, hp, hst, hu, ha, -, hi⟩ := setSyntheticsMonitorAttributes_monitor deps
    (w.setRemote (providerConfig.NewClient.SyntheticsUpdateBrokenLinksMonitorWithContext
      w.remote w.d.Id (deps.buildSyntheticsBrokenLinksMonitorUpdateInput w.d)).2)
    resp.Monitor.GUID resp.Monitor.Name resp.Monitor.Period resp.Monitor.Status
    resp.Monitor.Uri hord hschema
  have hdef : (resourceNewRelicSyntheticsBrokenLinksMonitorUpdate deps w providerConfig).2
      = (setSyntheticsMonitorAttributes deps
          (w.setRemote (providerConfig.NewClient.SyntheticsUpdateBrokenLinksMonitorWithContext
      w.remote w.d.Id (deps.buildSyntheticsBrokenLinksMonitorUpdateInput w.d)).2)
          [("guid", resp.Monitor.GUID), ("name", resp.Monitor.Name),
           ("period", resp.Monitor.Period), ("status", resp.Monitor.Status),
           ("uri", resp.Monitor.Uri)]).1 := by
    simp only [resourceNewRelicSyntheticsBrokenLinksMonitorUpdate, hcall, herrs,
      List.length_nil, gt_iff_lt, lt_self_iff_false, if_false]
  rw [hdef]
  exact ⟨hg, hn, hp, hst, hu, hi, ha⟩

/-- Witness of C7: an update that succeeds with monitor `GUID-1`, on a resource with
ID `MTIz` and a stored account 42. -/
theorem update_success_sets_attributes_witness :
    (resourceNewRelicSyntheticsBrokenLinksMonitorUpdate exDeps exWorld
      (exConfig exClientOk)).2.d.attrs "guid" = some (.str "GUID-1") ∧
    (resourceNewRelicSyntheticsBrokenLinksMonitorUpdate exDeps exWorld
      (exConfig exClientOk)).2.d.attrs "name" = some (.str "links") ∧
    (resourceNewRelicSyntheticsBrokenLinksMonitorUpdate exDeps exWorld
      (exConfig exClientOk)).2.d.attrs "period" = some (.str "EVERY_HOUR") ∧
    (resourceNewRelicSyntheticsBrokenLinksMonitorUpdate exDeps exWorld
      (exConfig exClientOk)).2.d.attrs "status" = some (.str "ENABLED") ∧
    (resourceNewRelicSyntheticsBrokenLinksMonitorUpdate exDeps exWorld
      (exConfig exClientOk)).2.d.attrs "uri" = some (.str "https://example.com") ∧
    (resourceNewRelicSyntheticsBrokenLinksMonitorUpdate exDeps exWorld
      (exConfig exClientOk)).2.d.id = "MTIz" ∧
    (resourceNewRelicSyntheticsBrokenLinksMonitorUpdate exDeps exWorld
      (exConfig exClientOk)).2.d.attrs "account_id" = some (.int 42) :=
  update_success_sets_attributes exDeps exWorld (exConfig exClientOk)
    { Errors := [], Monitor := exMonitor } rfl rfl (fun m => List.reverse_perm m) (by decide)


end NewRelic
